import Mathlib

/-!
Verification of the stb-backend gateway (a Vercel serverless backend that
proxies chat and text-to-speech requests to the Gemini API behind layered
rate limiting and a bounded retry loop).

The development shallowly embeds the three handler variants of the
repository:

* `src/api/chat.js` — the Redis/Upstash-backed chat endpoint
  (`checkRateLimit`, `chatRedisHandler`);
* `src/unnamed/part_000` — the in-memory chat endpoint
  (`checkRateLimitMemP`, `memHandler`);
* `src/unnamed/part_001` — the Redis/Upstash-backed TTS endpoint
  (`checkRateLimitTts`, `ttsHandler`).

JavaScript-specific behaviour that the claims depend on (truthiness,
`undefined`, property access on a pending Promise) is modelled by the small
`JsVal` / `JsPromise` layer.  The Upstash `Ratelimit.limit` call is an
external collaborator whose package is not part of the repository; it is
modelled from the spec (see `limitCall`).  Upstream AI calls are modelled as
oracles (`AttemptResult`, `TtsUpstream`) supplied per request.
-/

/-- A JavaScript value, restricted to the shapes the handlers inspect.
`numv` carries an integer (NaN is irrelevant to every claim). -/
inductive JsVal
  | undef
  | nullv
  | boolv (b : Bool)
  | numv (n : Int)
  | strv (s : String)
deriving Repr, DecidableEq

/-- JavaScript truthiness: `undefined`, `null`, `false`, `0` and the empty
string are falsy, everything else modelled here is truthy. -/
def truthy : JsVal → Bool
  | JsVal.undef => false
  | JsVal.nullv => false
  | JsVal.boolv b => b
  | JsVal.numv n => decide (n ≠ 0)
  | JsVal.strv s => decide (s ≠ "")

/-- `typeof v === 'string'`. -/
def isString : JsVal → Bool
  | JsVal.strv _ => true
  | _ => false

/-- A JavaScript string field as it appears in a JSON response:
`undefined` (and any non-string) becomes an absent field. -/
def jsToOptionStr : JsVal → Option String
  | JsVal.strv s => some s
  | _ => none

/-- A pending JavaScript Promise holding an eventual value.  Synchronous
property access on the Promise object itself never sees the eventual value:
a Promise has no `allowed`, `message` or `reason` property, so every such
read yields `undefined`.  This models the missing `await` in
`src/api/chat.js` line 122. -/
structure JsPromise (α : Type) where
  pendingValue : α
deriving Repr, DecidableEq

/-- Reading a named property off a pending Promise object yields
`undefined`, whatever the property name and the eventual value. -/
def JsPromise.getField {α : Type} (_ : JsPromise α) (_ : String) : JsVal :=
  JsVal.undef

/-- Does `pat` occur at the head of `s`?  (List-level helper for the
embedding of JavaScript `String.prototype.includes`.) -/
def subAt : List Char → List Char → Bool
  | _, [] => true
  | [], _ :: _ => false
  | c :: cs, d :: ds => (c = d) && subAt cs ds

/-- Does `pat` occur anywhere in `s` (as a contiguous sublist)? -/
def hasSubList : List Char → List Char → Bool
  | [], pat => pat.isEmpty
  | c :: cs, pat => subAt (c :: cs) pat || hasSubList cs pat

/-- Embedding of JavaScript `s.includes(pat)` used by the error
classification in both chat handlers. -/
def hasSubstr (s pat : String) : Bool :=
  hasSubList s.data pat.data

/-- JavaScript whitespace characters relevant to `String.prototype.trim`. -/
def isWhitespaceChar (c : Char) : Bool :=
  c = ' ' || c = '\t' || c = '\n' || c = '\r'

/-- Drop leading whitespace. -/
def dropLeadingWs : List Char → List Char
  | [] => []
  | c :: cs => if isWhitespaceChar c then dropLeadingWs cs else c :: cs

/-- Embedding of `s.trim().length === 0`: trimming leading and trailing
whitespace leaves the empty string exactly when dropping the leading
whitespace already leaves nothing. -/
def trimmedEmpty (s : String) : Bool :=
  (dropLeadingWs s.data).isEmpty

/-! ## The counter store (Upstash Redis, external collaborator)

The `@upstash/ratelimit` / `@upstash/redis` packages are external
collaborators; their code is not part of this repository.  The spec
describes the Counter Store as a black box with one operation: atomically
increment a named counter and return the post-increment count (§6), a tier
passing exactly when that count does not exceed the tier's limit (§4.1).
Keys are namespaced by the `prefix` each `Ratelimit` instance is built
with, so a key is a (prefix, identifier) pair. -/

/-- A counter-store key: the `Ratelimit` prefix together with the
identifier passed to `limit`. -/
abbrev Key := String × String

/-- The counter store within the current window: an association list from
keys to counts, newest binding first. -/
abbrev Store := List (Key × Nat)

/-- Current count of a key (0 when never incremented). -/
def getCount : Store → Key → Nat
  | [], _ => 0
  | (k1, n) :: rest, k => if k = k1 then n else getCount rest k

/-- Modelled from the spec: the Counter Store's atomic increment (§6),
returning the post-increment count and the updated store. -/
def incr (s : Store) (k : Key) : Nat × Store :=
  let n := getCount s k + 1
  (n, (k, n) :: s)

/-- Modelled from the spec: one `Ratelimit.limit(identifier)` call —
atomically increment the tier's counter and succeed exactly when the
post-increment count is within the tier's limit (§4.1: `count > limit`
means the tier is violated, the increment having still occurred). -/
def limitCall (s : Store) (k : Key) (lim : Nat) : Bool × Store :=
  let r := incr s k
  (decide (r.1 ≤ lim), r.2)

/-- Availability of the Redis counter store, as the handlers observe it:
`missing` — the Upstash credentials are absent so no client was built;
`failing` — the client exists but every `limit` call raises;
`avail s` — the store is reachable with current contents `s`. -/
inductive StoreState
  | missing
  | failing
  | avail (s : Store)
deriving Repr, DecidableEq

/-! ## src/api/chat.js — Redis-backed chat endpoint -/

/-- Result object of `checkRateLimit` in `src/api/chat.js`.  Absent JSON
fields (`reason`, `message` on the allowed result) are `none`.  The
`resetTime` field is omitted: no claim concerns its value. -/
structure RateLimitResult where
  allowed : Bool
  reason : Option String
  message : Option String
deriving Repr, DecidableEq

/-- The key of the global daily tier (`prefix 'ratelimit:global:daily'`,
fixed identifier `'global'`). -/
def dailyKey : Key := ("ratelimit:global:daily", "global")

/-- The key of the global per-minute tier. -/
def rpmKey : Key := ("ratelimit:global:rpm", "global")

/-- The key of the per-caller tier for a given client IP. -/
def userKey (ip : String) : Key := ("ratelimit:user", ip)

/-- Embedding of `checkRateLimit` from `src/api/chat.js` lines 57–104:
fail open when Redis is not configured; otherwise check the global daily
tier (900/24h), then the global per-minute tier (12/1m), then the
per-caller tier (50/24h), short-circuiting on the first violation; any
raised error is caught and the request allowed (fail open). -/
def checkRateLimit (st : StoreState) (ip : String) : RateLimitResult × StoreState :=
  match st with
  | StoreState.missing => (⟨true, none, none⟩, StoreState.missing)
  | StoreState.failing => (⟨true, none, none⟩, StoreState.failing)
  | StoreState.avail s =>
    let daily := limitCall s dailyKey 900
    if ¬ daily.1 then
      (⟨false, some "daily_limit",
        some "Daily request limit reached. Please try again tomorrow."⟩,
       StoreState.avail daily.2)
    else
      let rpm := limitCall daily.2 rpmKey 12
      if ¬ rpm.1 then
        (⟨false, some "rpm_limit",
          some "Too many requests per minute. Please wait a moment."⟩,
         StoreState.avail rpm.2)
      else
        let user := limitCall rpm.2 (userKey ip) 50
        if ¬ user.1 then
          (⟨false, some "user_limit",
            some "You have reached your daily limit of 50 questions. Please try again tomorrow."⟩,
           StoreState.avail user.2)
        else (⟨true, none, none⟩, StoreState.avail user.2)

/-! ## src/unnamed/part_001 — Redis-backed TTS endpoint -/

/-- Result object of `checkRateLimit` in `src/unnamed/part_001` (no
`reason` field in this variant). -/
structure TtsRateResult where
  allowed : Bool
  message : Option String
deriving Repr, DecidableEq

/-- The key of the TTS global per-minute tier. -/
def ttsRpmKey : Key := ("ratelimit:tts:global:rpm", "global")

/-- The key of the TTS per-caller tier for a given client IP. -/
def ttsUserKey (ip : String) : Key := ("ratelimit:tts:user", ip)

/-- Embedding of `checkRateLimit` from `src/unnamed/part_001` lines
42–63: fail open when Redis is not configured; otherwise check the global
per-minute tier (10/1m), then the per-caller tier (500/24h); any raised
error is caught and the request allowed (fail open). -/
def checkRateLimitTts (st : StoreState) (ip : String) : TtsRateResult × StoreState :=
  match st with
  | StoreState.missing => (⟨true, none⟩, StoreState.missing)
  | StoreState.failing => (⟨true, none⟩, StoreState.failing)
  | StoreState.avail s =>
    let rpm := limitCall s ttsRpmKey 10
    if ¬ rpm.1 then
      (⟨false, some "Too many requests. Please wait a moment."⟩, StoreState.avail rpm.2)
    else
      let user := limitCall rpm.2 (ttsUserKey ip) 500
      if ¬ user.1 then
        (⟨false, some "Daily TTS limit reached. Please try again tomorrow."⟩,
         StoreState.avail user.2)
      else (⟨true, none⟩, StoreState.avail user.2)

/-! ## The upstream chat call and the retry loop

Both chat variants contain the identical retry loop
(`src/api/chat.js` lines 180–198, `src/unnamed/part_000` lines 91–109)
and the identical catch-block error mapping
(`src/api/chat.js` lines 209–225, `src/unnamed/part_000` lines 120–136).
The upstream `chat.sendMessage` call is modelled as an oracle giving the
outcome of each attempt. -/

/-- Outcome of one upstream `chat.sendMessage` attempt: either resolved
text, or a thrown error carrying an optional `status` and a `message`. -/
inductive AttemptResult
  | success (text : String)
  | failure (status : Option Nat) (message : String)
deriving Repr, DecidableEq

/-- How the retry loop terminates: a successful result, or a (re)thrown
error. -/
inductive LoopOutcome
  | ok (text : String)
  | thrown (status : Option Nat) (message : String)
deriving Repr, DecidableEq

/-- `MAX_RETRIES = 2` in both chat variants. -/
def MAX_RETRIES : Nat := 2

/-- The backoff base: the loop sleeps `1000 * retries` milliseconds after
incrementing `retries`. -/
def RETRY_BASE_DELAY_MS : Nat := 1000

/-- One step of the `while (retries <= MAX_RETRIES)` loop.  `retries` is
the loop variable (equal to the number of attempts already made), `delays`
the backoff sleeps performed so far (in ms, in order).  Fuel is an upper
bound on remaining iterations (the loop body either terminates or
increments `retries`, so `maxRetries + 1` iterations suffice; fuel
exhaustion is unreachable).  Returns the outcome, the total number of
upstream attempts made, and the list of sleeps. -/
def retryAux (up : Nat → AttemptResult) (maxRetries baseDelay : Nat) :
    Nat → List Nat → Nat → LoopOutcome × Nat × List Nat
  | retries, delays, 0 => (LoopOutcome.thrown none "retry loop exhausted", retries, delays)
  | retries, delays, fuel + 1 =>
    match up retries with
    | AttemptResult.success t => (LoopOutcome.ok t, retries + 1, delays)
    | AttemptResult.failure code msg =>
      if code = some 503 ∧ retries < maxRetries then
        retryAux up maxRetries baseDelay (retries + 1)
          (delays ++ [baseDelay * (retries + 1)]) fuel
      else (LoopOutcome.thrown code msg, retries + 1, delays)

/-- Embedding of the `sendMessage` retry loop shared by both chat
variants: retry on a thrown error with `status === 503` while
`retries < MAX_RETRIES`, sleeping `1000 * retries` ms after the increment;
rethrow any other error or the third consecutive 503. -/
def sendMessageWithRetry (up : Nat → AttemptResult) : LoopOutcome × Nat × List Nat :=
  retryAux up MAX_RETRIES RETRY_BASE_DELAY_MS 0 [] (MAX_RETRIES + 1)

/-- A JSON HTTP response of the chat endpoints.  Absent JSON fields are
`none` (JavaScript `undefined` fields are dropped by `JSON.stringify`).
The development-only `details` field is omitted: no claim concerns it. -/
structure ChatResponse where
  status : Nat
  error : Option String
  reason : Option String
  response : Option String
deriving Repr, DecidableEq

/-- Embedding of the catch-block error mapping shared by both chat
variants: `status === 503 || message.includes('overloaded')` yields 503
with the overloaded message; otherwise `message.includes('quota')` yields
503 with the distinguished quota message; anything else yields 500. -/
def mapChatError (code : Option Nat) (msg : String) : ChatResponse :=
  if code = some 503 ∨ hasSubstr msg "overloaded" = true then
    ⟨503, some "AI service is temporarily overloaded. Please try again in a moment.",
     none, none⟩
  else if hasSubstr msg "quota" = true then
    ⟨503, some "Service temporarily unavailable. Please try again later.", none, none⟩
  else ⟨500, some "Failed to process chat request", none, none⟩

/-- Embedding of the `handler` of `src/api/chat.js`.  The handler takes
the counter-store state, the client IP, the HTTP method, the `message`
field of the body (a JavaScript value; `conversationHistory` is forwarded
verbatim and never branched on, so it is not modelled) and the upstream
oracle.  It returns the response, the final store state, and the number of
upstream attempts made.

Line 122 reads `const rateLimitResult = checkRateLimit(clientIp);` with no
`await`: the handler holds a pending Promise.  The admission computation
itself still runs (its counter increments happen asynchronously), but the
synchronous reads `rateLimitResult.allowed`, `.message`, `.reason` all see
`undefined`. -/
def chatRedisHandler (st : StoreState) (ip : String) (method : String)
    (message : JsVal) (up : Nat → AttemptResult) : ChatResponse × StoreState × Nat :=
  if method = "OPTIONS" then (⟨200, none, none, none⟩, st, 0)
  else if method ≠ "POST" then (⟨405, some "Method not allowed", none, none⟩, st, 0)
  else
    let rateLimitResult : JsPromise RateLimitResult := ⟨(checkRateLimit st ip).1⟩
    let st1 := (checkRateLimit st ip).2
    if ¬ truthy (rateLimitResult.getField "allowed") then
      (⟨429, jsToOptionStr (rateLimitResult.getField "message"),
        jsToOptionStr (rateLimitResult.getField "reason"), none⟩, st1, 0)
    else if ¬ truthy message then
      (⟨400, some "Message is required", none, none⟩, st1, 0)
    else
      match sendMessageWithRetry up with
      | (LoopOutcome.ok text, n, _) => (⟨200, none, none, some text⟩, st1, n)
      | (LoopOutcome.thrown code msg, n, _) => (mapChatError code msg, st1, n)

/-! ## src/unnamed/part_000 — in-memory chat endpoint -/

/-- One record of the in-memory `requestCounts` map. -/
structure MemRecord where
  count : Nat
  resetTime : Nat
deriving Repr, DecidableEq

/-- The in-memory map, an association list keyed by IP, newest binding
first. -/
abbrev MemStore := List (String × MemRecord)

/-- `requestCounts.get(ip)`. -/
def findRec : MemStore → String → Option MemRecord
  | [], _ => none
  | (k1, r) :: rest, ip => if ip = k1 then some r else findRec rest ip

/-- `RATE_LIMIT = 100` requests per IP per hour. -/
def RATE_LIMIT : Nat := 100

/-- `RATE_WINDOW = 60 * 60 * 1000` ms. -/
def RATE_WINDOW : Nat := 60 * 60 * 1000

/-- Embedding of `checkRateLimit` from `src/unnamed/part_000` lines
23–36, parameterised by the tier's limit and window (the source fixes
these to the constants `RATE_LIMIT` and `RATE_WINDOW`; the structure of
the check is unchanged).  Takes the current map and `Date.now()`, returns
the decision and the updated map: fetch the record (defaulting to a fresh
window), reset it when the window has elapsed (`now > resetTime`),
increment, store, and allow exactly when `count <= limit`. -/
def checkRateLimitMemP (limit window : Nat) (store : MemStore) (now : Nat)
    (ip : String) : Bool × MemStore :=
  let record0 := (findRec store ip).getD ⟨0, now + window⟩
  let record1 := if record0.resetTime < now then (⟨0, now + window⟩ : MemRecord) else record0
  let record2 : MemRecord := ⟨record1.count + 1, record1.resetTime⟩
  (decide (record2.count ≤ limit), (ip, record2) :: store)

/-- `checkRateLimit` of `src/unnamed/part_000` at the source's constants. -/
def checkRateLimitMem : MemStore → Nat → String → Bool × MemStore :=
  checkRateLimitMemP RATE_LIMIT RATE_WINDOW

/-- `n` successive calls of the (parameterised) in-memory rate-limit
check for one key, call `i` happening at time `times i`.  Returns the list
of decisions in order together with the final map. -/
def iterCalls (limit window : Nat) (k : String) (times : Nat → Nat)
    (store : MemStore) : Nat → List Bool × MemStore
  | 0 => ([], store)
  | n + 1 =>
    let prev := iterCalls limit window k times store n
    let step := checkRateLimitMemP limit window prev.2 (times n) k
    (prev.1 ++ [step.1], step.2)

/-- Embedding of the `handler` of `src/unnamed/part_000`: CORS preflight,
method check, the synchronous in-memory rate-limit check (429 on denial),
the `message` presence check (400), then the shared retry loop; a
successful result yields 200 with the text, a thrown error is mapped by
the shared catch block.  Returns the response, the final map, and the
number of upstream attempts made. -/
def memHandler (store : MemStore) (now : Nat) (ip : String) (method : String)
    (message : JsVal) (up : Nat → AttemptResult) : ChatResponse × MemStore × Nat :=
  if method = "OPTIONS" then (⟨200, none, none, none⟩, store, 0)
  else if method ≠ "POST" then (⟨405, some "Method not allowed", none, none⟩, store, 0)
  else
    let rl := checkRateLimitMem store now ip
    if ¬ rl.1 then
      (⟨429, some "Rate limit exceeded. Please try again later.", none, none⟩, rl.2, 0)
    else if ¬ truthy message then
      (⟨400, some "Message is required", none, none⟩, rl.2, 0)
    else
      match sendMessageWithRetry up with
      | (LoopOutcome.ok text, n, _) => (⟨200, none, none, some text⟩, rl.2, n)
      | (LoopOutcome.thrown code msg, n, _) => (mapChatError code msg, rl.2, n)

/-! ## src/unnamed/part_001 — the TTS handler -/

/-- The outcome of the single `fetch` to the Gemini TTS endpoint:
either a response (with `ok`, `status`, and the optional
`candidates[0].content.parts[0].inlineData` collapsed to its
`(data, mimeType)` pair when present), or a thrown error (network
failure, JSON parse failure, ...). -/
inductive TtsUpstream
  | resp (ok : Bool) (status : Nat) (audio : Option (String × String))
  | throws (message : String)
deriving Repr, DecidableEq

/-- A JSON HTTP response of the TTS endpoint. -/
structure TtsResponse where
  status : Nat
  error : Option String
  audioData : Option String
  mimeType : Option String
deriving Repr, DecidableEq

/-- Embedding of the `text` validation of `src/unnamed/part_001` line 90:
`!text || typeof text !== 'string' || text.trim().length === 0`. -/
def ttsTextInvalid (v : JsVal) : Bool :=
  !(truthy v) || !(isString v) ||
    (match v with
     | JsVal.strv s => trimmedEmpty s
     | _ => true)

/-- Embedding of the `handler` of `src/unnamed/part_001`: CORS preflight,
method check, the **awaited** rate-limit check (429 on denial), the `text`
validation (400), then exactly one upstream `fetch`: a thrown error maps
to 500; a non-ok response maps to 502; an ok response without (truthy)
`inlineData.data` maps to 502; otherwise 200 with the audio payload.
Returns the response, the final store state, and the number of upstream
calls made. -/
def ttsHandler (st : StoreState) (ip : String) (method : String)
    (textVal : JsVal) (up : TtsUpstream) : TtsResponse × StoreState × Nat :=
  if method = "OPTIONS" then (⟨200, none, none, none⟩, st, 0)
  else if method ≠ "POST" then (⟨405, some "Method not allowed", none, none⟩, st, 0)
  else
    let rl := checkRateLimitTts st ip
    if ¬ rl.1.allowed then (⟨429, rl.1.message, none, none⟩, rl.2, 0)
    else if ttsTextInvalid textVal then
      (⟨400, some "text is required", none, none⟩, rl.2, 0)
    else
      match up with
      | TtsUpstream.throws _ =>
        (⟨500, some "Failed to synthesize speech", none, none⟩, rl.2, 1)
      | TtsUpstream.resp ok code audio =>
        if ¬ ok then
          (⟨502, some ("Gemini TTS error: " ++ toString code), none, none⟩, rl.2, 1)
        else
          match audio with
          | some (d, m) =>
            if d = "" then
              (⟨502, some "No audio data returned from Gemini TTS", none, none⟩, rl.2, 1)
            else (⟨200, none, some d, some m⟩, rl.2, 1)
          | none =>
            (⟨502, some "No audio data returned from Gemini TTS", none, none⟩, rl.2, 1)

/-- The status mapping asserted by the claim about the TTS variant,
written from the claim's words (for comparison with the handler embedded
from the source): one upstream call whose thrown failure yields 500, a
non-ok status yields 502, a response with no audio data yields 502, and
otherwise 200. -/
def ttsClaimStatus : TtsUpstream → Nat
  | TtsUpstream.throws _ => 500
  | TtsUpstream.resp ok _ audio =>
    if ¬ ok then 502
    else
      match audio with
      | some (d, _) => if d = "" then 502 else 200
      | none => 502

/-- An upstream oracle that fails with a 503 overload on the first two
attempts and succeeds with payload `p` on the third. -/
def overloadTwiceThenOk (m0 m1 p : String) : Nat → AttemptResult :=
  fun i =>
    if i = 0 then AttemptResult.failure (some 503) m0
    else if i = 1 then AttemptResult.failure (some 503) m1
    else AttemptResult.success p

/-! ## Helper lemmas -/

/-- The per-caller chat key never collides with the global daily key
(their Upstash prefixes differ). -/
theorem userKey_ne_dailyKey (ip : String) : userKey ip ≠ dailyKey := by
  simp [userKey, dailyKey]

/-- The global per-minute chat key differs from the global daily key. -/
theorem rpmKey_ne_dailyKey : rpmKey ≠ dailyKey := by
  simp [rpmKey, dailyKey]

/-- The per-caller TTS key never collides with the TTS per-minute key. -/
theorem ttsUserKey_ne_ttsRpmKey (ip : String) : ttsUserKey ip ≠ ttsRpmKey := by
  simp [ttsUserKey, ttsRpmKey]

/-- When both TTS tiers are under their limits, the TTS rate-limit check
allows the request and increments both counters. -/
theorem checkRateLimitTts_allowed (s : Store) (ip : String)
    (hrpm : getCount s ttsRpmKey + 1 ≤ 10)
    (huser : getCount s (ttsUserKey ip) + 1 ≤ 500) :
    checkRateLimitTts (StoreState.avail s) ip =
      (⟨true, none⟩,
       StoreState.avail ((ttsUserKey ip, getCount s (ttsUserKey ip) + 1) ::
         (ttsRpmKey, getCount s ttsRpmKey + 1) :: s)) := by
  have hne := ttsUserKey_ne_ttsRpmKey ip
  simp [checkRateLimitTts, limitCall, incr, getCount, hrpm, huser, hne]

/-- Once admitted with valid text, the TTS handler makes exactly one
upstream call and returns the status the source's single-`fetch` branch
dictates. -/
theorem ttsHandler_post_shape (st : StoreState) (ip : String) (tv : JsVal)
    (up : TtsUpstream)
    (hallow : (checkRateLimitTts st ip).1.allowed = true)
    (hv : ttsTextInvalid tv = false) :
    (ttsHandler st ip "POST" tv up).1.status = ttsClaimStatus up ∧
    (ttsHandler st ip "POST" tv up).2.2 = 1 := by
  cases up with
  | throws m =>
    constructor <;> simp [ttsHandler, ttsClaimStatus, hallow, hv]
  | resp ok code audio =>
    cases audio with
    | none =>
      cases ok <;> (constructor <;> simp [ttsHandler, ttsClaimStatus, hallow, hv])
    | some pr =>
      obtain ⟨d, m⟩ := pr
      cases ok with
      | false => constructor <;> simp [ttsHandler, ttsClaimStatus, hallow, hv]
      | true =>
        by_cases hd : d = "" <;>
          (constructor <;> simp [ttsHandler, ttsClaimStatus, hallow, hv, hd])

/-- The claim-side TTS status mapping never yields 429. -/
theorem ttsClaimStatus_ne_429 (up : TtsUpstream) : ttsClaimStatus up ≠ 429 := by
  cases up with
  | throws m => simp [ttsClaimStatus]
  | resp ok code audio =>
    cases audio with
    | none => cases ok <;> simp [ttsClaimStatus]
    | some pr =>
      obtain ⟨d, m⟩ := pr
      cases ok with
      | false => simp [ttsClaimStatus]
      | true => by_cases hd : d = "" <;> simp [ttsClaimStatus, hd]

/-! ## Claims -/

/-- Claim C2: in the Redis-backed chat variant, every POST request gets a
429 response whose `error` and `reason` fields are undefined (absent),
with zero upstream attempts — for every counter-store state (configured or
not), every payload and every upstream behaviour — because the handler
reads `allowed` off the still-pending admission Promise. -/
theorem chat_redis_every_post_429 (st : StoreState) (ip : String)
    (message : JsVal) (up : Nat → AttemptResult) :
    (chatRedisHandler st ip "POST" message up).1 = ⟨429, none, none, none⟩ ∧
    (chatRedisHandler st ip "POST" message up).2.2 = 0 :=
  ⟨rfl, rfl⟩

/-- Claim C1, counterexample to the claim as stated: with the per-caller
counter already at its limit (50), a POST from that caller is **not**
forwarded upstream as if admitted — the handler makes zero upstream
attempts and responds 429, so the un-awaited admission check does not
cause over-limit requests to be forwarded. -/
theorem chat_redis_overlimit_not_forwarded_cex :
    (chatRedisHandler (StoreState.avail [(userKey "203.0.113.7", 50)])
        "203.0.113.7" "POST" (JsVal.strv "hello")
        (fun _ => AttemptResult.success "ok")).2.2 = 0 ∧
    (chatRedisHandler (StoreState.avail [(userKey "203.0.113.7", 50)])
        "203.0.113.7" "POST" (JsVal.strv "hello")
        (fun _ => AttemptResult.success "ok")).1.status = 429 :=
  ⟨rfl, rfl⟩

/-- Claim C1, amended: the un-awaited rate-limit check does not skip
admission control; instead the handler never observes the admission
decision and rejects every POST — in particular every request over the
per-caller limit is answered 429 with zero upstream attempts, never
forwarded upstream. -/
theorem chat_redis_unawaited_check_blocks (s : Store) (ip : String)
    (message : JsVal) (up : Nat → AttemptResult)
    (_hover : 50 ≤ getCount s (userKey ip)) :
    (chatRedisHandler (StoreState.avail s) ip "POST" message up).2.2 = 0 ∧
    (chatRedisHandler (StoreState.avail s) ip "POST" message up).1.status = 429 :=
  ⟨rfl, rfl⟩

/-- Witness for the amended C1 at a concrete over-limit store. -/
theorem chat_redis_unawaited_check_blocks_witness :
    (chatRedisHandler (StoreState.avail [(userKey "198.51.100.1", 50)])
        "198.51.100.1" "POST" (JsVal.strv "hi")
        (fun _ => AttemptResult.success "pong")).2.2 = 0 ∧
    (chatRedisHandler (StoreState.avail [(userKey "198.51.100.1", 50)])
        "198.51.100.1" "POST" (JsVal.strv "hi")
        (fun _ => AttemptResult.success "pong")).1.status = 429 :=
  chat_redis_unawaited_check_blocks [(userKey "198.51.100.1", 50)] "198.51.100.1"
    (JsVal.strv "hi") (fun _ => AttemptResult.success "pong") (by decide)

/-- Claim C3: when the counter store is missing or its increment raises,
both the Redis chat admission check and the TTS admission check fail open
(`allowed = true`) for every caller; in the TTS handler this holds
independently of the payload: no request is ever answered 429 in these
degraded states. -/
theorem fail_open_uniform (ip : String) :
    checkRateLimit StoreState.missing ip = (⟨true, none, none⟩, StoreState.missing) ∧
    checkRateLimit StoreState.failing ip = (⟨true, none, none⟩, StoreState.failing) ∧
    checkRateLimitTts StoreState.missing ip = (⟨true, none⟩, StoreState.missing) ∧
    checkRateLimitTts StoreState.failing ip = (⟨true, none⟩, StoreState.failing) ∧
    (∀ (tv : JsVal) (up : TtsUpstream),
      (ttsHandler StoreState.missing ip "POST" tv up).1.status ≠ 429) ∧
    (∀ (tv : JsVal) (up : TtsUpstream),
      (ttsHandler StoreState.failing ip "POST" tv up).1.status ≠ 429) := by
  refine ⟨rfl, rfl, rfl, rfl, ?_, ?_⟩
  · intro tv up
    by_cases hv : ttsTextInvalid tv
    · simp [ttsHandler, checkRateLimitTts, hv]
    · have hsh := ttsHandler_post_shape StoreState.missing ip tv up rfl (by simpa using hv)
      rw [hsh.1]
      exact ttsClaimStatus_ne_429 up
  · intro tv up
    by_cases hv : ttsTextInvalid tv
    · simp [ttsHandler, checkRateLimitTts, hv]
    · have hsh := ttsHandler_post_shape StoreState.failing ip tv up rfl (by simpa using hv)
      rw [hsh.1]
      exact ttsClaimStatus_ne_429 up

/-- Witness for C3 at a concrete caller and payload. -/
theorem fail_open_uniform_witness :
    checkRateLimit StoreState.missing "192.0.2.9" = (⟨true, none, none⟩, StoreState.missing) ∧
    checkRateLimit StoreState.failing "192.0.2.9" = (⟨true, none, none⟩, StoreState.failing) ∧
    checkRateLimitTts StoreState.missing "192.0.2.9" = (⟨true, none⟩, StoreState.missing) ∧
    checkRateLimitTts StoreState.failing "192.0.2.9" = (⟨true, none⟩, StoreState.failing) ∧
    (∀ (tv : JsVal) (up : TtsUpstream),
      (ttsHandler StoreState.missing "192.0.2.9" "POST" tv up).1.status ≠ 429) ∧
    (∀ (tv : JsVal) (up : TtsUpstream),
      (ttsHandler StoreState.failing "192.0.2.9" "POST" tv up).1.status ≠ 429) :=
  fail_open_uniform "192.0.2.9"

/-- Claim C9: the TTS variant performs no retries: once a request is
admitted and its text is valid, exactly one upstream call is made whatever
the outcome (503 overload included), a thrown failure yields 500, and a
non-ok or audio-less response yields 502 (statuses as given by
`ttsClaimStatus`, the claim's mapping). -/
theorem tts_single_attempt (st : StoreState) (ip : String) (tv : JsVal)
    (up : TtsUpstream)
    (hallow : (checkRateLimitTts st ip).1.allowed = true)
    (hv : ttsTextInvalid tv = false) :
    (ttsHandler st ip "POST" tv up).2.2 = 1 ∧
    (ttsHandler st ip "POST" tv up).1.status = ttsClaimStatus up :=
  ⟨(ttsHandler_post_shape st ip tv up hallow hv).2,
   (ttsHandler_post_shape st ip tv up hallow hv).1⟩

/-- Witness for C9: an overloaded (503, non-ok) upstream response still
causes exactly one call and an immediate 502. -/
theorem tts_single_attempt_witness :
    (ttsHandler StoreState.missing "192.0.2.2" "POST" (JsVal.strv "hello")
        (TtsUpstream.resp false 503 none)).2.2 = 1 ∧
    (ttsHandler StoreState.missing "192.0.2.2" "POST" (JsVal.strv "hello")
        (TtsUpstream.resp false 503 none)).1.status =
      ttsClaimStatus (TtsUpstream.resp false 503 none) :=
  tts_single_attempt StoreState.missing "192.0.2.2" (JsVal.strv "hello")
    (TtsUpstream.resp false 503 none) rfl rfl

/-- Claim C10: in the TTS variant an invalid `text` (missing, non-string
or whitespace-only) is answered 400 with no upstream call, but because the
validation runs after the awaited admission check, both TTS counters have
already been incremented for the rejected request. -/
theorem tts_invalid_text_after_admission (s : Store) (ip : String) (tv : JsVal)
    (up : TtsUpstream)
    (hrpm : getCount s ttsRpmKey + 1 ≤ 10)
    (huser : getCount s (ttsUserKey ip) + 1 ≤ 500)
    (hv : ttsTextInvalid tv = true) :
    (ttsHandler (StoreState.avail s) ip "POST" tv up).1.status = 400 ∧
    (ttsHandler (StoreState.avail s) ip "POST" tv up).2.2 = 0 ∧
    (∃ s1, (ttsHandler (StoreState.avail s) ip "POST" tv up).2.1 = StoreState.avail s1 ∧
      getCount s1 ttsRpmKey = getCount s ttsRpmKey + 1 ∧
      getCount s1 (ttsUserKey ip) = getCount s (ttsUserKey ip) + 1) := by
  have hck := checkRateLimitTts_allowed s ip hrpm huser
  have hne := ttsUserKey_ne_ttsRpmKey ip
  refine ⟨?_, ?_, ⟨(ttsUserKey ip, getCount s (ttsUserKey ip) + 1) ::
      (ttsRpmKey, getCount s ttsRpmKey + 1) :: s, ?_, ?_, ?_⟩⟩ <;>
    simp [ttsHandler, hck, hv, getCount, hne, Ne.symm hne]

/-- Witness for C10: a whitespace-only `text` on an empty store gets 400,
no upstream call, and both counters at 1. -/
theorem tts_invalid_text_after_admission_witness :
    (ttsHandler (StoreState.avail []) "192.0.2.3" "POST" (JsVal.strv "   ")
        (TtsUpstream.resp true 200 (some ("QUJD", "audio/pcm;rate=24000")))).1.status = 400 ∧
    (ttsHandler (StoreState.avail []) "192.0.2.3" "POST" (JsVal.strv "   ")
        (TtsUpstream.resp true 200 (some ("QUJD", "audio/pcm;rate=24000")))).2.2 = 0 ∧
    (∃ s1, (ttsHandler (StoreState.avail []) "192.0.2.3" "POST" (JsVal.strv "   ")
        (TtsUpstream.resp true 200 (some ("QUJD", "audio/pcm;rate=24000")))).2.1 =
          StoreState.avail s1 ∧
      getCount s1 ttsRpmKey = getCount ([] : Store) ttsRpmKey + 1 ∧
      getCount s1 (ttsUserKey "192.0.2.3") = getCount ([] : Store) (ttsUserKey "192.0.2.3") + 1) :=
  tts_invalid_text_after_admission [] "192.0.2.3" (JsVal.strv "   ")
    (TtsUpstream.resp true 200 (some ("QUJD", "audio/pcm;rate=24000")))
    (by decide) (by decide) (by decide)

/-- Claim C4: chat admission evaluates global-daily first and
short-circuits: when a request would violate both the global-daily and the
per-caller tier, the decision reports `daily_limit` only, the store gains
exactly the daily increment, and neither the per-caller nor the per-minute
counter is incremented. -/
theorem chat_admission_daily_short_circuits (s : Store) (ip : String)
    (hdaily : 900 ≤ getCount s dailyKey)
    (_huser : 50 ≤ getCount s (userKey ip)) :
    (checkRateLimit (StoreState.avail s) ip).1 =
      ⟨false, some "daily_limit",
       some "Daily request limit reached. Please try again tomorrow."⟩ ∧
    (checkRateLimit (StoreState.avail s) ip).2 =
      StoreState.avail ((dailyKey, getCount s dailyKey + 1) :: s) ∧
    getCount ((dailyKey, getCount s dailyKey + 1) :: s) (userKey ip) =
      getCount s (userKey ip) ∧
    getCount ((dailyKey, getCount s dailyKey + 1) :: s) rpmKey = getCount s rpmKey := by
  have h1 : ¬ (getCount s dailyKey + 1 ≤ 900) := by omega
  refine ⟨?_, ?_, ?_, ?_⟩
  · simp [checkRateLimit, limitCall, incr, h1]
  · simp [checkRateLimit, limitCall, incr, h1]
  · simp [getCount, userKey_ne_dailyKey ip]
  · simp [getCount, rpmKey_ne_dailyKey]

/-- Witness for C4: daily counter at 900 and per-caller counter at 50. -/
theorem chat_admission_daily_short_circuits_witness :
    (checkRateLimit (StoreState.avail [(dailyKey, 900), (userKey "192.0.2.1", 50)])
        "192.0.2.1").1 =
      ⟨false, some "daily_limit",
       some "Daily request limit reached. Please try again tomorrow."⟩ ∧
    (checkRateLimit (StoreState.avail [(dailyKey, 900), (userKey "192.0.2.1", 50)])
        "192.0.2.1").2 =
      StoreState.avail ((dailyKey,
        getCount [(dailyKey, 900), (userKey "192.0.2.1", 50)] dailyKey + 1) ::
        [(dailyKey, 900), (userKey "192.0.2.1", 50)]) ∧
    getCount ((dailyKey,
        getCount [(dailyKey, 900), (userKey "192.0.2.1", 50)] dailyKey + 1) ::
        [(dailyKey, 900), (userKey "192.0.2.1", 50)]) (userKey "192.0.2.1") =
      getCount [(dailyKey, 900), (userKey "192.0.2.1", 50)] (userKey "192.0.2.1") ∧
    getCount ((dailyKey,
        getCount [(dailyKey, 900), (userKey "192.0.2.1", 50)] dailyKey + 1) ::
        [(dailyKey, 900), (userKey "192.0.2.1", 50)]) rpmKey =
      getCount [(dailyKey, 900), (userKey "192.0.2.1", 50)] rpmKey :=
  chat_admission_daily_short_circuits [(dailyKey, 900), (userKey "192.0.2.1", 50)]
    "192.0.2.1" (by decide) (by decide)

/-- Claim C5: on a persistent overload (every attempt throws with status
503), the retry loop makes exactly 3 attempts (2 retries), sleeps
`baseDelay * (attempt + 1)` between attempts (1000 ms then 2000 ms), and
then surfaces the thrown 503 instead of retrying further; the total sleep
is at least 3000 ms. -/
theorem retry_overload_exhausts (msgs : Nat → String) :
    sendMessageWithRetry (fun i => AttemptResult.failure (some 503) (msgs i)) =
      (LoopOutcome.thrown (some 503) (msgs 2), 3,
       [RETRY_BASE_DELAY_MS * (0 + 1), RETRY_BASE_DELAY_MS * (1 + 1)]) ∧
    3000 ≤ RETRY_BASE_DELAY_MS * (0 + 1) + RETRY_BASE_DELAY_MS * (1 + 1) :=
  ⟨rfl, by decide⟩

/-- Claim C6: an upstream failure reporting quota exhaustion (a non-503
status whose message mentions `quota`, not `overloaded`) is rethrown after
a single attempt with no sleeps — zero retries — and the handlers' shared
catch block maps it to a 503 response whose message differs from every
overloaded-service (status 503) response. -/
theorem quota_immediate_fatal (code : Option Nat) (msg : String)
    (hcode : code ≠ some 503)
    (hq : hasSubstr msg "quota" = true)
    (ho : hasSubstr msg "overloaded" = false) :
    sendMessageWithRetry (fun _ => AttemptResult.failure code msg) =
      (LoopOutcome.thrown code msg, 1, []) ∧
    mapChatError code msg =
      ⟨503, some "Service temporarily unavailable. Please try again later.", none, none⟩ ∧
    (∀ m2, mapChatError (some 503) m2 ≠ mapChatError code msg) := by
  have hstep : sendMessageWithRetry (fun _ => AttemptResult.failure code msg) =
      if code = some 503 ∧ 0 < MAX_RETRIES then
        retryAux (fun _ => AttemptResult.failure code msg) MAX_RETRIES RETRY_BASE_DELAY_MS
          1 [RETRY_BASE_DELAY_MS * (0 + 1)] MAX_RETRIES
      else (LoopOutcome.thrown code msg, 1, []) := rfl
  have hc : ¬ (code = some 503 ∧ 0 < MAX_RETRIES) := fun h => hcode h.1
  have hmap : mapChatError code msg =
      ⟨503, some "Service temporarily unavailable. Please try again later.", none, none⟩ := by
    simp [mapChatError, hcode, ho, hq]
  refine ⟨?_, hmap, ?_⟩
  · rw [hstep, if_neg hc]
  · intro m2
    rw [hmap]
    simp [mapChatError]

/-- Witness for C6: a 429 quota-exhaustion failure. -/
theorem quota_immediate_fatal_witness :
    sendMessageWithRetry
        (fun _ => AttemptResult.failure (some 429) "You exceeded your current quota") =
      (LoopOutcome.thrown (some 429) "You exceeded your current quota", 1, []) ∧
    mapChatError (some 429) "You exceeded your current quota" =
      ⟨503, some "Service temporarily unavailable. Please try again later.", none, none⟩ ∧
    (∀ m2, mapChatError (some 503) m2 ≠
      mapChatError (some 429) "You exceeded your current quota") :=
  quota_immediate_fatal (some 429) "You exceeded your current quota"
    (by decide) (by decide) (by decide)

/-- The first in-memory check of an unseen key opens a window ending at
`now + window` and counts 1. -/
theorem checkMem_fresh (limit window : Nat) (s : MemStore) (now : Nat) (k : String)
    (hfind : findRec s k = none) :
    checkRateLimitMemP limit window s now k =
      (decide (1 ≤ limit), (k, ⟨1, now + window⟩) :: s) := by
  have hlt : ¬ (now + window < now) := by omega
  simp [checkRateLimitMemP, hfind, hlt]

/-- An in-memory check inside the current window increments the count and
keeps the reset time. -/
theorem checkMem_existing (limit window : Nat) (s : MemStore) (now : Nat) (k : String)
    (c r : Nat) (hfind : findRec s k = some ⟨c, r⟩) (hnow : ¬ (r < now)) :
    checkRateLimitMemP limit window s now k =
      (decide (c + 1 ≤ limit), (k, ⟨c + 1, r⟩) :: s) := by
  simp [checkRateLimitMemP, hfind, hnow]

/-- Sequence of in-memory checks for one key, all within the window opened
by the first call: the i-th call (1-based) is allowed exactly when
`i ≤ limit`, and the stored record tracks the number of calls. -/
theorem iterCalls_spec (limit window : Nat) (k : String) (times : Nat → Nat)
    (s0 : MemStore) (h0 : findRec s0 k = none) :
    ∀ n, (∀ i, i < n → times i ≤ times 0 + window) →
      (iterCalls limit window k times s0 n).1 =
        (List.range n).map (fun i => decide (i + 1 ≤ limit)) ∧
      findRec (iterCalls limit window k times s0 n).2 k =
        (if n = 0 then none else some ⟨n, times 0 + window⟩) := by
  intro n
  induction n with
  | zero => intro _; exact ⟨rfl, by simpa [iterCalls] using h0⟩
  | succ m ih =>
    intro hW
    have ihm := ih (fun i hi => hW i (Nat.lt_succ_of_lt hi))
    have hm_le : times m ≤ times 0 + window := hW m (Nat.lt_succ_self m)
    by_cases hm : m = 0
    · subst hm
      have hstep := checkMem_fresh limit window s0 (times 0) k h0
      have hfull : iterCalls limit window k times s0 (0 + 1) =
          ([(checkRateLimitMemP limit window s0 (times 0) k).1],
           (checkRateLimitMemP limit window s0 (times 0) k).2) := rfl
      rw [hfull, hstep]
      constructor
      · simp [List.range_succ]
      · simp [findRec]
    · have hfind : findRec (iterCalls limit window k times s0 m).2 k =
          some ⟨m, times 0 + window⟩ := by
        simpa [hm] using ihm.2
      have hnow : ¬ (times 0 + window < times m) := by omega
      have hstep := checkMem_existing limit window
          (iterCalls limit window k times s0 m).2 (times m) k m (times 0 + window)
          hfind hnow
      have hfull : iterCalls limit window k times s0 (m + 1) =
          ((iterCalls limit window k times s0 m).1 ++
            [(checkRateLimitMemP limit window
                (iterCalls limit window k times s0 m).2 (times m) k).1],
           (checkRateLimitMemP limit window
              (iterCalls limit window k times s0 m).2 (times m) k).2) := rfl
      rw [hfull, hstep]
      constructor
      · simp [ihm.1, List.range_succ]
      · simp [findRec, hm]

/-- Claim C7: for any limit `L` and window `W`, successive in-memory
checks of one key all falling within the window opened by the first call
are allowed for the 1st through L-th call and denied from the (L+1)-th on
(the i-th decision is `i ≤ L`); and with limit 0 every check, whatever the
state, key or time, is denied. -/
theorem mem_tier_allows_first_L (limit window : Nat) (k : String)
    (times : Nat → Nat) (s0 : MemStore) (n : Nat)
    (h0 : findRec s0 k = none)
    (hW : ∀ i, i < n → times i ≤ times 0 + window) :
    (iterCalls limit window k times s0 n).1 =
      (List.range n).map (fun i => decide (i + 1 ≤ limit)) ∧
    (∀ (w2 : Nat) (s2 : MemStore) (now2 : Nat) (k2 : String),
      (checkRateLimitMemP 0 w2 s2 now2 k2).1 = false) := by
  refine ⟨(iterCalls_spec limit window k times s0 h0 n hW).1, ?_⟩
  intro w2 s2 now2 k2
  simp [checkRateLimitMemP]

/-- Witness for C7: limit 2, three calls — allowed, allowed, denied. -/
theorem mem_tier_allows_first_L_witness :
    (iterCalls 2 10 "a" (fun _ => 0) [] 3).1 =
      (List.range 3).map (fun i => decide (i + 1 ≤ 2)) ∧
    (∀ (w2 : Nat) (s2 : MemStore) (now2 : Nat) (k2 : String),
      (checkRateLimitMemP 0 w2 s2 now2 k2).1 = false) :=
  mem_tier_allows_first_L 2 10 "a" (fun _ => 0) [] 3 rfl (fun _ _ => Nat.zero_le _)

/-- Claim C8: in the in-memory chat variant, when the upstream call fails
with a 503 overload on the first two attempts and succeeds on the third,
an admitted request with a present message is answered 200 carrying the
successful payload, with exactly 3 upstream attempts in total. -/
theorem overload_twice_then_success (s0 : MemStore) (now : Nat) (ip : String)
    (mv : JsVal) (m0 m1 p : String)
    (hrl : (checkRateLimitMem s0 now ip).1 = true)
    (hmv : truthy mv = true) :
    (memHandler s0 now ip "POST" mv (overloadTwiceThenOk m0 m1 p)).1 =
      ⟨200, none, none, some p⟩ ∧
    (memHandler s0 now ip "POST" mv (overloadTwiceThenOk m0 m1 p)).2.2 = 3 := by
  have hsend : sendMessageWithRetry (overloadTwiceThenOk m0 m1 p) =
      (LoopOutcome.ok p, 3,
       [RETRY_BASE_DELAY_MS * (0 + 1), RETRY_BASE_DELAY_MS * (1 + 1)]) := rfl
  constructor <;> simp [memHandler, hrl, hmv, hsend]

/-- Witness for C8: empty map, fresh caller, concrete overload messages. -/
theorem overload_twice_then_success_witness :
    (memHandler [] 0 "192.0.2.4" "POST" (JsVal.strv "hi")
        (overloadTwiceThenOk "overloaded" "overloaded" "pong")).1 =
      ⟨200, none, none, some "pong"⟩ ∧
    (memHandler [] 0 "192.0.2.4" "POST" (JsVal.strv "hi")
        (overloadTwiceThenOk "overloaded" "overloaded" "pong")).2.2 = 3 :=
  overload_twice_then_success [] 0 "192.0.2.4" (JsVal.strv "hi")
    "overloaded" "overloaded" "pong" (by decide) (by decide)
